import Mathlib

set_option maxRecDepth 16384

/-!
Verification of the paper-fetcher and survey-builder core of the
RagBasedResearchAssistant repository (src/backend.py, src/app.py).

Python strings are modelled as lists of characters (`PyStr`), which matches
Python's view of a string as a sequence of code points.  `pySplit` models
Python's `str.split` with a literal, non-empty separator; `pyStrip` models
`str.strip()`; `pyInt?` models `int(...)` applied to a string, returning
`none` where Python raises `ValueError`; Python's `lst[i]` indexing, which
raises `IndexError` when out of range, is modelled with `List.get?`-style
optional indexing.  A raised-and-uncaught exception is modelled as `none`
(inside the per-entry `try`) or as the `Except.error` branch (for the
network request, which the source does not wrap in any handler).
-/

/-- Python strings as sequences of characters. -/
abbrev PyStr := List Char

/-- Shorthand turning a Lean string literal into a `PyStr`. -/
def S (s : String) : PyStr := s.data

/-- Fuelled worker for `pySplit`.  With `sep` non-empty and fuel at least
`s.length + 1` this computes Python's `s.split(sep)`: scan left to right,
cut at each non-overlapping occurrence of `sep`. -/
def pySplitAux (sep : PyStr) : Nat → PyStr → List PyStr
  | 0, s => [s]
  | _ + 1, [] => [[]]
  | fuel + 1, c :: rest =>
    if sep.isPrefixOf (c :: rest) then
      [] :: pySplitAux sep fuel ((c :: rest).drop sep.length)
    else
      match pySplitAux sep fuel rest with
      | [] => [[c]]
      | h :: t => (c :: h) :: t

/-- Python's `s.split(sep)` for a literal separator (the source only ever
splits on fixed non-empty tag strings).  `"abc".split("x") = ["abc"]`,
`"xaxb".split("x") = ["", "a", "b"]`. -/
def pySplit (s sep : PyStr) : List PyStr :=
  if sep.isEmpty then [s] else pySplitAux sep (s.length + 1) s

/-- Python's `s.strip()`: remove whitespace from both ends. -/
def pyStrip (s : PyStr) : PyStr :=
  ((s.dropWhile Char.isWhitespace).reverse.dropWhile Char.isWhitespace).reverse

/-- Python's `int(s)`: strip whitespace, allow one optional sign, then a
non-empty run of decimal digits; anything else raises `ValueError`,
modelled as `none`. -/
def pyInt? (s : PyStr) : Option Int :=
  let t := pyStrip s
  let signDigits : Int × PyStr :=
    match t with
    | '-' :: ds => (-1, ds)
    | '+' :: ds => (1, ds)
    | ds => (1, ds)
  if signDigits.2 ≠ [] ∧ signDigits.2.all Char.isDigit then
    some (signDigits.1 *
      (signDigits.2.foldl (fun acc c => 10 * acc + ((c.toNat : Int) - 48)) 0))
  else none

/-- The record built per parsed entry, mirroring the
`Document` value constructed in `fetch_arxiv_papers` (src/backend.py lines
42-47): `page_content` holds the summary, and the metadata dict holds the
title, link, year and authors. -/
structure Document where
  page_content : PyStr
  title : PyStr
  link : PyStr
  year : Int
  authors : List PyStr
deriving DecidableEq

/-- Models `entry.split(startTag)[1].split(endTag)[0].strip()` — the
field-extraction idiom of src/backend.py lines 31-34 and 39.  `split(...)[1]` raises
`IndexError` (modelled as `none`) when `startTag` is absent; `split(...)[0]`
always succeeds, returning the whole remainder when `endTag` is absent. -/
def extractField (startTag endTag entry : PyStr) : Option PyStr :=
  ((pySplit entry startTag)[1]?).map
    (fun rest => pyStrip ((pySplit rest endTag).headD []))

/-- The author chunks of one entry: `entry.split("<author>")[1:]`
(src/backend.py line 38). -/
def authorParts (entry : PyStr) : List PyStr :=
  (pySplit entry (S "<author>")).drop 1

/-- The author-collection loop of src/backend.py lines 37-40: extract a
`<name>` from every author part in order; a missing `<name>` raises
`IndexError`, aborting the whole record (the exception reaches the outer
`except`), modelled as `none`. -/
def collectAuthors : List PyStr → Option (List PyStr)
  | [] => some []
  | part :: rest => do
    let name ← extractField (S "<name>") (S "</name>") part
    let others ← collectAuthors rest
    pure (name :: others)

/-- The body of the per-entry `try` block (src/backend.py lines 30-47):
extract title, summary, link and published date, parse the year as the
integer before the first `-`, collect the authors, and build the record;
any failure yields `none` (the `except: continue` skip). -/
def parseEntry (entry : PyStr) : Option Document := do
  let title ← extractField (S "<title>") (S "</title>") entry
  let summary ← extractField (S "<summary>") (S "</summary>") entry
  let link ← extractField (S "<id>") (S "</id>") entry
  let published ← extractField (S "<published>") (S "</published>") entry
  let year ← pyInt? ((pySplit published (S "-")).headD [])
  let authors ← collectAuthors (authorParts entry)
  pure { page_content := summary, title := title, link := link,
         year := year, authors := authors }

/-- The entry chunks of a response body, `text.split("<entry>")[1:]`
(src/backend.py line 26), discarding the preamble before the first entry. -/
def entriesOf (text : PyStr) : List PyStr :=
  (pySplit text (S "<entry>")).drop 1

/-- The parsing loop of src/backend.py lines 29-49: each entry chunk is
parsed independently and failed chunks are skipped. -/
def parsePapers (text : PyStr) : List Document :=
  (entriesOf text).filterMap parseEntry

/-- Failures `requests.get` can raise (timeout after 30 s, connection
error). -/
inductive NetErr
  | timeout
  | connectionError
deriving DecidableEq

/-- Models `fetch_arxiv_papers` (src/backend.py lines 11-51) relative to the
outcome of its one HTTP request: the call `requests.get(...)` at line 23 is
not wrapped in any handler, so a raised network error propagates to the
caller unchanged; otherwise the response text is parsed chunk by chunk. -/
def fetch_arxiv_papers (response : Except NetErr PyStr) :
    Except NetErr (List Document) :=
  response.map parsePapers

/-- Tests that the tag occurs in the entry, i.e. `entry.split(tag)` has a
second element and indexing `[1]` succeeds. -/
def hasTag (tag entry : PyStr) : Bool :=
  ((pySplit entry tag)[1]?).isSome

/-- The year prefix of the extracted published field parses as an integer
(`false` also when the published field itself cannot be extracted). -/
def yearOk (entry : PyStr) : Bool :=
  match extractField (S "<published>") (S "</published>") entry with
  | some pub => (pyInt? ((pySplit pub (S "-")).headD [])).isSome
  | none => false

/-- All four required start delimiters are present and the year prefix
parses — the conditions the spec names for a chunk to survive. -/
def requiredFieldsOk (entry : PyStr) : Bool :=
  hasTag (S "<title>") entry && hasTag (S "<summary>") entry &&
    hasTag (S "<id>") entry && hasTag (S "<published>") entry && yearOk entry

/-- Every author part of the entry contains the `<name>` start delimiter. -/
def authorsOk (entry : PyStr) : Bool :=
  (authorParts entry).all (fun part => hasTag (S "<name>") part)

/-- Python's `str.join`, as used for `"\n\n".join(blocks)`
(src/backend.py line 78). -/
def joinSep (sep : PyStr) : List PyStr → PyStr
  | [] => []
  | [a] => a
  | a :: b :: rest => a ++ sep ++ joinSep sep (b :: rest)

/-- Digit rendering of an integer, as Python's `str(int)` inside the
f-string of src/backend.py line 79. -/
def intToChars (i : Int) : PyStr :=
  if i < 0 then '-' :: Nat.toDigits 10 i.natAbs else Nat.toDigits 10 i.natAbs

/-- The per-record block of src/backend.py line 79:
the title line, then the summary line.  (The `metadata.get`
defaults never fire for records built by `fetch_arxiv_papers`, which always
sets both keys.) -/
def renderDoc (d : Document) : PyStr :=
  S "Title: " ++ d.title ++ S " (" ++ intToChars d.year ++ S ")" ++
    S "\nSummary: " ++ d.page_content

/-- The `papers_text` value of src/backend.py lines 78-80: blocks joined
by one blank line, in input order. -/
def papers_text (docs : List Document) : PyStr :=
  joinSep (S "\n\n") (docs.map renderDoc)

/-- The survey template (src/backend.py lines 61-74) up to the `papers`
placeholder. -/
def tmplBeforePapers : PyStr :=
  S "\nYou are an assistant that writes **professional literature survey drafts**.\n\nOrganize the information into the following sections:\n1. **Background** → Provide a concise overview of the research area.\n2. **Key Themes** → Summarize recurring ideas/findings as bullet points.\n3. **Research Gaps** → Highlight missing, underexplored, or inconsistent areas.\n4. **References** → List titles with year (from the provided metadata). Do not invent references.\n\nPapers:\n"

/-- The template text between the `papers` and `query` placeholders. -/
def tmplBetween : PyStr := S "\n\nResearch Topic: "

/-- The template text after the `query` placeholder. -/
def tmplAfter : PyStr := S "\n"

/-- Substitution of the two template variables into the template
(the formatting step of `prompt | llm` at src/backend.py lines 75-76, 81). -/
def formatTemplate (papers query : PyStr) : PyStr :=
  tmplBeforePapers ++ papers ++ tmplBetween ++ query ++ tmplAfter

/-- The one fully rendered prompt `build_survey_text` sends to the model. -/
def build_survey_prompt (query : PyStr) (docs : List Document) : PyStr :=
  formatTemplate (papers_text docs) query

/-- The model's reply; `content` is the text the source returns
(src/backend.py line 82). -/
structure AIMessage where
  content : PyStr
deriving DecidableEq

/-- Models `build_survey_text` (src/backend.py lines 57-82) over an abstract
model invoker: render the prompt, invoke the model once, return
`result.content`.  The monad carries the invoker's effects; in
`Except E` a raised model error propagates unchanged, since nothing in the
source catches it. -/
def build_survey_text {m : Type → Type} [Monad m] (query : PyStr)
    (docs : List Document) (llm : PyStr → m AIMessage) : m PyStr := do
  let result ← llm (build_survey_prompt query docs)
  pure result.content

/-- An instrumented invoker that counts its invocations while answering
with the pure function `g`. -/
def countingLLM (g : PyStr → AIMessage) : PyStr → StateM Nat AIMessage :=
  fun s => do
    modify (· + 1)
    pure (g s)

/-- The caller-side truncation `papers[:top_k]` at src/app.py line 86. -/
def topKSlice (papers : List Document) (top_k : Nat) : List Document :=
  papers.take top_k

/-- Concrete response body for the error-isolation scenario: three entries,
the middle one missing its `<published>` field. -/
def respC1 : PyStr :=
  S "<?xml?><feed><entry><title>A</title><summary>SA</summary><id>LA</id><published>2020-01-01</published><entry><title>B</title><summary>SB</summary><id>LB</id><entry><title>C</title><summary>SC</summary><id>LC</id><published>2022-03-04</published>"

/-- First entry chunk of `respC1`. -/
def entryC1a : PyStr :=
  S "<title>A</title><summary>SA</summary><id>LA</id><published>2020-01-01</published>"

/-- Second (malformed) entry chunk of `respC1`. -/
def entryC1b : PyStr :=
  S "<title>B</title><summary>SB</summary><id>LB</id>"

/-- Third entry chunk of `respC1`. -/
def entryC1c : PyStr :=
  S "<title>C</title><summary>SC</summary><id>LC</id><published>2022-03-04</published>"

/-- Concrete well-formed two-entry response body. -/
def respC3 : PyStr :=
  S "pre<entry><title>A</title><summary>SA</summary><id>LA</id><published>2020-01-01</published><author><name>Ann</name></author><entry><title>B</title><summary>SB</summary><id>LB</id><published>2021-06-07</published>"

/-- Concrete entry whose published date is `2023-05-10T00:00:00Z`. -/
def entryC4 : PyStr :=
  S "<title>T</title><summary>Su</summary><id>L</id><published>2023-05-10T00:00:00Z</published><author><name>Ann</name></author>"

/-- The record `entryC4` parses to. -/
def docC4 : Document :=
  { page_content := S "Su", title := S "T", link := S "L", year := 2023,
    authors := [S "Ann"] }

/-- Paper "A" of the spec's two-paper rendering example. -/
def docA : Document :=
  { page_content := S "sa", title := S "A", link := S "la", year := 2020,
    authors := [] }

/-- Paper "B" of the spec's two-paper rendering example. -/
def docB : Document :=
  { page_content := S "sb", title := S "B", link := S "lb", year := 2021,
    authors := [] }

/-- Concrete entry with all required fields and no author block. -/
def entryC8 : PyStr :=
  S "<title>T</title><summary>Su</summary><id>L</id><published>2019-11-02</published>"

/-- Concrete chunk where every required field is present and the year
parses, but the one author block has no `<name>` delimiter. -/
def entryC10 : PyStr :=
  S "<title>T</title><summary>Su</summary><id>L</id><published>2023-05-10T00:00:00Z</published><author>anonymous"

/-- Concrete chunk whose `</title>` end delimiter is missing: the title
becomes the whole remainder of the chunk after `<title>`, stripped. -/
def entryC10b : PyStr :=
  S "<title>My T\n<summary>Su</summary><id>L</id><published>2023-05-10</published>"

/-- The record `entryC10b` parses to: no skip, the title swallows the rest
of the chunk. -/
def docC10b : Document :=
  { page_content := S "Su",
    title := S "My T\n<summary>Su</summary><id>L</id><published>2023-05-10</published>",
    link := S "L", year := 2023, authors := [] }

/-- Concrete response body with no `<entry>` marker at all. -/
def respGarbage : PyStr := S "this body is not the expected markup"

theorem extractField_isSome (st et e : PyStr) :
    (extractField st et e).isSome = hasTag st e := by
  cases hx : (pySplit e st)[1]? <;> simp [extractField, hasTag, hx]

theorem collectAuthors_isSome (parts : List PyStr) :
    (collectAuthors parts).isSome =
      parts.all (fun p => hasTag (S "<name>") p) := by
  induction parts with
  | nil => rfl
  | cons p rest ih =>
    have h1 := extractField_isSome (S "<name>") (S "</name>") p
    cases hx : extractField (S "<name>") (S "</name>") p with
    | none =>
      rw [hx] at h1
      simp [collectAuthors, hx, List.all_cons, ← h1]
    | some n =>
      rw [hx] at h1
      cases hy : collectAuthors rest with
      | none =>
        rw [hy] at ih
        simp [collectAuthors, hx, hy, List.all_cons, ← h1, ← ih]
      | some l =>
        rw [hy] at ih
        simp [collectAuthors, hx, hy, List.all_cons, ← h1, ← ih]

theorem parseEntry_isSome_eq (entry : PyStr) :
    (parseEntry entry).isSome = (requiredFieldsOk entry && authorsOk entry) := by
  have ha := collectAuthors_isSome (authorParts entry)
  have ht := extractField_isSome (S "<title>") (S "</title>") entry
  have hs := extractField_isSome (S "<summary>") (S "</summary>") entry
  have hl := extractField_isSome (S "<id>") (S "</id>") entry
  have hp := extractField_isSome (S "<published>") (S "</published>") entry
  cases h1 : extractField (S "<title>") (S "</title>") entry with
  | none =>
    rw [h1] at ht
    simp [parseEntry, h1, requiredFieldsOk, ← ht]
  | some t =>
    rw [h1] at ht
    cases h2 : extractField (S "<summary>") (S "</summary>") entry with
    | none =>
      rw [h2] at hs
      simp [parseEntry, h1, h2, requiredFieldsOk, ← hs]
    | some s =>
      rw [h2] at hs
      cases h3 : extractField (S "<id>") (S "</id>") entry with
      | none =>
        rw [h3] at hl
        simp [parseEntry, h1, h2, h3, requiredFieldsOk, ← hl]
      | some l =>
        rw [h3] at hl
        cases h4 : extractField (S "<published>") (S "</published>") entry with
        | none =>
          rw [h4] at hp
          simp [parseEntry, h1, h2, h3, h4, requiredFieldsOk, ← hp]
        | some pub =>
          rw [h4] at hp
          cases h5 : pyInt? ((pySplit pub (S "-")).headD []) with
          | none =>
            rw [List.headD_eq_head?] at h5
            simp [parseEntry, h1, h2, h3, h4, h5, requiredFieldsOk, yearOk,
              ← ht, ← hs, ← hl, ← hp]
          | some y =>
            rw [List.headD_eq_head?] at h5
            cases h6 : collectAuthors (authorParts entry) with
            | none =>
              rw [h6] at ha
              simp [parseEntry, h1, h2, h3, h4, h5, h6, requiredFieldsOk,
                yearOk, authorsOk, ← ht, ← hs, ← hl, ← hp, ← ha]
            | some as =>
              rw [h6] at ha
              simp [parseEntry, h1, h2, h3, h4, h5, h6, requiredFieldsOk,
                yearOk, authorsOk, ← ht, ← hs, ← hl, ← hp, ← ha]

theorem parseEntry_eq_none_of_not_required (e : PyStr)
    (h : requiredFieldsOk e = false) : parseEntry e = none := by
  have hs : (parseEntry e).isSome = false := by
    rw [parseEntry_isSome_eq, h, Bool.false_and]
  cases hp : parseEntry e with
  | none => rfl
  | some d => rw [hp] at hs; simp at hs

theorem length_filterMap_of_isSome {α β : Type} (f : α → Option β) :
    ∀ l : List α, (∀ x ∈ l, (f x).isSome) →
      (l.filterMap f).length = l.length := by
  intro l
  induction l with
  | nil => intro _; rfl
  | cons a t ih =>
    intro h
    have ha := h a (by simp)
    cases hx : f a with
    | none => rw [hx] at ha; simp at ha
    | some b =>
      rw [List.filterMap_cons_some hx]
      simp only [List.length_cons]
      rw [ih (fun x hmem => h x (by simp [hmem]))]

theorem forall2_filterMap {α β : Type} (f : α → Option β) :
    ∀ l : List α, (∀ x ∈ l, (f x).isSome) →
      List.Forall₂ (fun a b => f a = some b) l (l.filterMap f) := by
  intro l
  induction l with
  | nil => intro _; simp
  | cons a t ih =>
    intro h
    have ha := h a (by simp)
    cases hx : f a with
    | none => rw [hx] at ha; simp at ha
    | some b =>
      rw [List.filterMap_cons_some hx]
      exact List.Forall₂.cons hx (ih fun x hmem => h x (by simp [hmem]))

theorem parseEntry_some_spec (entry : PyStr) (d : Document)
    (h : parseEntry entry = some d) :
    extractField (S "<title>") (S "</title>") entry = some d.title ∧
    extractField (S "<summary>") (S "</summary>") entry = some d.page_content ∧
    extractField (S "<id>") (S "</id>") entry = some d.link ∧
    (∃ pub,
      extractField (S "<published>") (S "</published>") entry = some pub ∧
        pyInt? ((pySplit pub (S "-")).headD []) = some d.year) ∧
    collectAuthors (authorParts entry) = some d.authors := by
  simp only [parseEntry, Option.bind_eq_bind, Option.bind_eq_some] at h
  obtain ⟨t, ht, s, hs, l, hl, pub, hpub, y, hy, as, has, hd⟩ := h
  cases hd
  exact ⟨ht, hs, hl, ⟨pub, hpub, hy⟩, has⟩

/-- C1: per-record error isolation in the fetcher: when one entry chunk
fails a required-field extraction and every other chunk parses, the result
equals the parse of the entry list with the bad chunk removed — one fewer
record than the total entry count, the others unaffected and in order. -/
theorem fetch_error_isolation (text : PyStr) (l1 l2 : List PyStr)
    (bad : PyStr) (hsplit : entriesOf text = l1 ++ bad :: l2)
    (hbad : requiredFieldsOk bad = false)
    (hok : ∀ e ∈ l1 ++ l2, (parseEntry e).isSome) :
    parsePapers text = (l1 ++ l2).filterMap parseEntry ∧
      (parsePapers text).length = (entriesOf text).length - 1 := by
  have hbn := parseEntry_eq_none_of_not_required bad hbad
  have heq : parsePapers text = (l1 ++ l2).filterMap parseEntry := by
    rw [parsePapers, hsplit]
    simp [List.filterMap_append, List.filterMap_cons, hbn]
  refine ⟨heq, ?_⟩
  rw [heq, hsplit, length_filterMap_of_isSome _ _ hok]
  simp only [List.length_append, List.length_cons]
  omega

/-- Witness for C1: a three-entry response whose middle entry misses its
`<published>` field parses to the two outer records. -/
theorem fetch_error_isolation_witness :
    parsePapers respC1 = ([entryC1a] ++ [entryC1c]).filterMap parseEntry ∧
      (parsePapers respC1).length = (entriesOf respC1).length - 1 :=
  fetch_error_isolation respC1 [entryC1a] [entryC1c] entryC1b (by decide)
    (by decide) (by decide)

/-- C2 counterexample: a network failure (for instance a timeout) does not
yield an empty record sequence — `requests.get` is outside any handler, so
the error propagates to the caller unchanged. -/
theorem fetch_network_error_not_absorbed :
    fetch_arxiv_papers (Except.error NetErr.timeout) =
      Except.error NetErr.timeout ∧
      fetch_arxiv_papers (Except.error NetErr.timeout) ≠
        Except.ok ([] : List Document) := by
  refine ⟨rfl, ?_⟩
  intro h
  simp [fetch_arxiv_papers, Except.map] at h

/-- C2 (amended): a non-parseable response body (no chunk parses) yields an
empty sequence, but a network failure propagates to the caller as an error,
it is not absorbed into an empty result. -/
theorem fetch_error_behaviour :
    (∀ e : NetErr, fetch_arxiv_papers (Except.error e) = Except.error e) ∧
    (∀ text : PyStr, (∀ entry ∈ entriesOf text, parseEntry entry = none) →
      fetch_arxiv_papers (Except.ok text) = Except.ok []) := by
  constructor
  · intro e; rfl
  · intro text h
    have hnil : parsePapers text = [] := by
      rw [parsePapers]
      exact List.filterMap_eq_nil_iff.mpr h
    simp [fetch_arxiv_papers, Except.map, hnil]

/-- Witness for C2 (amended): a body with no `<entry>` marker yields the
empty record list. -/
theorem fetch_error_behaviour_witness :
    fetch_arxiv_papers (Except.ok respGarbage) = Except.ok [] :=
  fetch_error_behaviour.2 respGarbage (by decide)

/-- C3: for a response whose entry chunks are all well-formed (required
start delimiters present, year prefix parseable, author blocks carrying
their `<name>` delimiter), `fetch` parses exactly N records, positionally
matching the N entry chunks in input order. -/
theorem fetch_all_wellformed (text : PyStr)
    (h : ∀ e ∈ entriesOf text,
      requiredFieldsOk e = true ∧ authorsOk e = true) :
    (parsePapers text).length = (entriesOf text).length ∧
      List.Forall₂ (fun e d => parseEntry e = some d) (entriesOf text)
        (parsePapers text) := by
  have hsome : ∀ e ∈ entriesOf text, (parseEntry e).isSome := by
    intro e he
    rw [parseEntry_isSome_eq, (h e he).1, (h e he).2]
    rfl
  exact ⟨length_filterMap_of_isSome _ _ hsome, forall2_filterMap _ _ hsome⟩

/-- Witness for C3: a two-entry well-formed response parses to two records
in order. -/
theorem fetch_all_wellformed_witness :
    (parsePapers respC3).length = (entriesOf respC3).length ∧
      List.Forall₂ (fun e d => parseEntry e = some d) (entriesOf respC3)
        (parsePapers respC3) :=
  fetch_all_wellformed respC3 (by decide)

/-- C4: a successfully parsed record's year is the integer parsed from the
extracted published-date string's segment before its first `-`; and when
that segment does not parse as an integer, the whole record is dropped. -/
theorem year_from_published :
    (∀ (entry : PyStr) (d : Document), parseEntry entry = some d →
      ∃ pub,
        extractField (S "<published>") (S "</published>") entry = some pub ∧
          pyInt? ((pySplit pub (S "-")).headD []) = some d.year) ∧
    (∀ (entry pub : PyStr),
      extractField (S "<published>") (S "</published>") entry = some pub →
      pyInt? ((pySplit pub (S "-")).headD []) = none →
      parseEntry entry = none) := by
  constructor
  · intro entry d hd
    exact (parseEntry_some_spec entry d hd).2.2.2.1
  · intro entry pub hpub hyear
    cases h1 : extractField (S "<title>") (S "</title>") entry with
    | none => simp [parseEntry, h1]
    | some t =>
      cases h2 : extractField (S "<summary>") (S "</summary>") entry with
      | none => simp [parseEntry, h1, h2]
      | some s =>
        cases h3 : extractField (S "<id>") (S "</id>") entry with
        | none => simp [parseEntry, h1, h2, h3]
        | some l =>
          rw [List.headD_eq_head?] at hyear
          simp [parseEntry, h1, h2, h3, hpub, hyear]

/-- Witness for C4: the entry published at `2023-05-10T00:00:00Z` parses
with year 2023, the integer before the first `-`. -/
theorem year_from_published_witness :
    ∃ pub,
      extractField (S "<published>") (S "</published>") entryC4 = some pub ∧
        pyInt? ((pySplit pub (S "-")).headD []) = some docC4.year :=
  year_from_published.1 entryC4 docC4 (by decide)

/-- C5: the papers section is one two-line block per record — title line
then summary line — joined by exactly one blank line, in input order; for
the two example papers the rendered section is exactly the two blocks in
order, and the full prompt embeds them verbatim. -/
theorem papers_text_rendering :
    (∀ (d : Document) (ds : List Document),
      papers_text (d :: ds) =
        renderDoc d ++
          (if ds.isEmpty then [] else S "\n\n" ++ papers_text ds)) ∧
    papers_text [docA, docB] =
      S "Title: A (2020)\nSummary: sa\n\nTitle: B (2021)\nSummary: sb" ∧
    build_survey_prompt (S "topic") [docA, docB] =
      tmplBeforePapers ++
        S "Title: A (2020)\nSummary: sa\n\nTitle: B (2021)\nSummary: sb" ++
        tmplBetween ++ S "topic" ++ tmplAfter := by
  refine ⟨?_, by decide, by decide⟩
  intro d ds
  cases ds with
  | nil => simp [papers_text, joinSep]
  | cons b t => simp [papers_text, joinSep]

/-- C6: with an empty papers sequence the builder still produces a prompt
whose papers section is empty and which contains the topic, and invokes
the model exactly once with that prompt, without failing beforehand. -/
theorem empty_papers_prompt (query : PyStr) (g : PyStr → AIMessage) :
    papers_text [] = [] ∧
    build_survey_prompt query [] =
      tmplBeforePapers ++ tmplBetween ++ query ++ tmplAfter ∧
    (build_survey_text query [] (countingLLM g)).run 0 =
      ((g (build_survey_prompt query [])).content, 1) := by
  refine ⟨rfl, ?_, rfl⟩
  simp [build_survey_prompt, formatTemplate, papers_text, joinSep]

/-- C7: the builder invokes the model exactly once, with the rendered
prompt, returns the completion content verbatim, and passes any error of
the invoker through unchanged. -/
theorem build_survey_single_invocation :
    (∀ (query : PyStr) (docs : List Document) (g : PyStr → AIMessage),
      (build_survey_text query docs (countingLLM g)).run 0 =
        ((g (build_survey_prompt query docs)).content, 1)) ∧
    (∀ (E : Type) (query : PyStr) (docs : List Document)
      (f : PyStr → Except E AIMessage),
      build_survey_text query docs f =
        (f (build_survey_prompt query docs)).map AIMessage.content) := by
  constructor
  · intro query docs g
    rfl
  · intro E query docs f
    cases hf : f (build_survey_prompt query docs) with
    | error e =>
      simp [build_survey_text, hf, Except.map, Except.bind, bind]
    | ok r =>
      simp [build_survey_text, hf, Except.map, Except.bind, bind, pure,
        Except.pure]

/-- C8: an entry whose required fields all parse and which has zero author
blocks yields a record with an empty authors sequence — no error, no
dropped record. -/
theorem no_author_blocks_empty_authors (entry : PyStr)
    (hreq : requiredFieldsOk entry = true)
    (hnone : authorParts entry = []) :
    ∃ d, parseEntry entry = some d ∧ d.authors = [] := by
  have hsome : (parseEntry entry).isSome = true := by
    rw [parseEntry_isSome_eq, hreq]
    simp [authorsOk, hnone]
  cases hp : parseEntry entry with
  | none => rw [hp] at hsome; simp at hsome
  | some d =>
    refine ⟨d, rfl, ?_⟩
    have hc := (parseEntry_some_spec entry d hp).2.2.2.2
    rw [hnone] at hc
    simp [collectAuthors] at hc
    exact hc

/-- Witness for C8: a concrete entry with no `<author>` block parses to a
record with empty authors. -/
theorem no_author_blocks_empty_authors_witness :
    ∃ d, parseEntry entryC8 = some d ∧ d.authors = [] :=
  no_author_blocks_empty_authors entryC8 (by decide) (by decide)

/-- C9: the builder renders one block per supplied record with no limit of
its own, and the caller's top-K slice simply returns every available
record (never an error) when the bound exceeds the list length. -/
theorem builder_renders_all_supplied :
    (∀ docs : List Document, (docs.map renderDoc).length = docs.length) ∧
    (∀ (papers : List Document) (top_k : Nat),
      (topKSlice papers top_k).length = min top_k papers.length) ∧
    (∀ (papers : List Document) (top_k : Nat), papers.length ≤ top_k →
      topKSlice papers top_k = papers) := by
  refine ⟨fun docs => List.length_map docs renderDoc, ?_, ?_⟩
  · intro papers top_k
    exact List.length_take top_k papers
  · intro papers top_k h
    exact List.take_of_length_le h

/-- Witness for C9: slicing two available records with a top-K bound of 5
returns both records unchanged. -/
theorem builder_renders_all_supplied_witness :
    topKSlice [docA, docB] 5 = [docA, docB] :=
  builder_renders_all_supplied.2.2 [docA, docB] 5 (by decide)

/-- C10 counterexample: a chunk with every required start delimiter
present and a parseable year prefix is nevertheless skipped, because its
one author block has no `<name>` delimiter — so "skipped iff a required
start delimiter is absent or the year prefix fails parsing" is false. -/
theorem skip_condition_counterexample :
    requiredFieldsOk entryC10 = true ∧ authorsOk entryC10 = false ∧
      parseEntry entryC10 = none := by decide

/-- C10 (amended): a chunk is kept iff all required start delimiters are
present, the year prefix parses, and every author block carries its
`<name>` delimiter; a missing end delimiter alone never causes a skip —
the field value becomes the rest of the chunk after the start delimiter,
stripped, as the `entryC10b` record shows for its `</title>`. -/
theorem skip_condition_characterization :
    (∀ entry : PyStr,
      (parseEntry entry).isSome =
        (requiredFieldsOk entry && authorsOk entry)) ∧
    parseEntry entryC10b = some docC10b :=
  ⟨parseEntry_isSome_eq, by decide⟩
